import Mathlib

/-!
Shallow embedding of `codegen/datatypes.py` from the plotly.py code
generator, together with proofs about the class-emission pipeline
(`get_typing_type`, `build_datatype_py`, `reindent_validator_description`,
`add_constructor_params`, `add_docstring`).

Python strings are modelled as Lean `String`s, buffer writes as string
concatenation, and Python exceptions as `Except EmitError`.  Apostrophes
occurring in the generated Python text are written with the escape
`\x27` throughout.
-/

/-- Errors with which the Python code can abort class emission:
`notCompound` models the `assert node.is_compound` statement failing
(line 63), `unknownType` models the `ValueError` raised by
`get_typing_type` (line 37), and `unboundPropType` models the
`NameError` Python raises when the literal-accessor loop (line 165)
reads the local variable `prop_type` although the datatype-children
loop never assigned it. -/
inductive EmitError where
  | notCompound : EmitError
  | unknownType : String → EmitError
  | unboundPropType : EmitError
deriving DecidableEq

/-- Base Python type for a plotly valType string: the if/elif chain of
`get_typing_type` (lines 24-37) before the `array_ok` wrapping. -/
def base_pytype (plotly_type : String) : Except EmitError String :=
  if plotly_type ∈ ["data_array", "info_array", "colorlist"] then .ok "List"
  else if plotly_type ∈ ["string", "color", "colorscale", "subplotid"] then .ok "str"
  else if plotly_type ∈ ["enumerated", "flaglist", "any"] then .ok "Any"
  else if plotly_type ∈ ["number", "angle"] then .ok "Number"
  else if plotly_type = "integer" then .ok "int"
  else if plotly_type = "boolean" then .ok "bool"
  else .error (.unknownType plotly_type)

/-- Python `get_typing_type(plotly_type, array_ok)` (lines 9-42): maps a
schema valType tag to a Python type string, wrapping it in a
scalar-or-list Union when `array_ok` is true. -/
def get_typing_type (plotly_type : String) (array_ok : Bool) : Except EmitError String :=
  match base_pytype plotly_type with
  | .error e => .error e
  | .ok pytype =>
    if array_ok then .ok ("Union[" ++ pytype ++ ", List[" ++ pytype ++ "]]")
    else .ok pytype

/-- Whitespace characters recognised by Python str.strip and str.split. -/
def pyIsSpace (c : Char) : Bool :=
  c == ' ' || c == '\t' || c == '\n' || c == '\r' || c == '\x0b' || c == '\x0c'

/-- Drop the longest run of characters satisfying p from the end of a list. -/
def dropTrailing (p : Char → Bool) (l : List Char) : List Char :=
  (l.reverse.dropWhile p).reverse

/-- Python s.strip() on the character list of a string. -/
def pyStripList (l : List Char) : List Char :=
  dropTrailing pyIsSpace (l.dropWhile pyIsSpace)

/-- Python s.strip(). -/
def pyStrip (s : String) : String := String.mk (pyStripList s.data)

/-- Python sep.join(parts). -/
def pyJoin (sep : String) : List String → String
  | [] => ""
  | [part] => part
  | part :: parts => part ++ sep ++ pyJoin sep parts

/-- Cut a character list at every character satisfying p, keeping empty
pieces, as Python single-character str.split does. -/
def splitBy (p : Char → Bool) : List Char → List (List Char)
  | [] => [[]]
  | c :: rest =>
    if p c then [] :: splitBy p rest
    else
      match splitBy p rest with
      | [] => [[c]]
      | piece :: pieces => (c :: piece) :: pieces

/-- Python s.split on the newline character. -/
def pySplitNL (s : String) : List String :=
  (splitBy (fun c => c == '\n') s.data).map String.mk

/-- A run of n space characters, Python " " * n. -/
def sp (n : Nat) : String := String.mk (List.replicate n ' ')

/-- A run of dashes as long as s, Python "-" * len(s). -/
def dashes (s : String) : String := String.mk (List.replicate s.length '-')

/-- Python `reindent_validator_description(validator, extra_indent)`
(lines 234-256): the validator description string is stripped and its
lines are joined with a newline followed by `extra_indent` spaces, so
every line after the first gains `extra_indent` spaces in addition to
whatever indent it already carried.  The `validator` argument stands
for the string returned by `validator.description()`. -/
def reindent_validator_description (validator : String) (extra_indent : Nat) : String :=
  pyJoin ("\n" ++ sp extra_indent) (pySplitNL (pyStrip validator))

/-- Greedy packing of words into indented lines of at most `width`
columns, at least one word per line. -/
def packWords (indent width : Nat) (line : String) : List String → List String
  | [] => [line]
  | w :: ws =>
    if line.length + 1 + w.length ≤ width then
      packWords indent width (line ++ " " ++ w) ws
    else
      line :: packWords indent width (sp indent ++ w) ws

/-- Model of the Python standard library function textwrap.wrap as
invoked by this module (initial_indent = subsequent_indent = `indent`
spaces, with the replace_whitespace and drop_whitespace defaults):
split the text into whitespace-separated words and greedily pack them
into indented lines.  Long-word breaking is not modelled; no claim
below depends on the exact break positions.  All-whitespace input
yields no lines, exactly as in Python. -/
def textwrap_wrap (text : String) (indent width : Nat) : List String :=
  match ((splitBy pyIsSpace text.data).filter (fun w => !w.isEmpty)).map String.mk with
  | [] => []
  | w :: ws => packWords indent width (sp indent ++ w) ws

/-- A child of the node being emitted, carrying exactly the attributes
that `build_datatype_py` reads off child nodes.  The attributes
themselves are computed by the PlotlyNode class in codegen/utils.py,
which is outside this extract; here they are plain input data.  The
`validator` field stands for `get_validator_instance()`: `none` when no
validator instance exists, otherwise the string its description()
method returns. -/
structure ChildNode where
  plotly_name : String
  name_property : String
  name_datatype_class : String
  name_validator_class : String
  is_compound : Bool
  is_array_element : Bool
  datatype : String
  description : String
  node_data : String
  validator : Option String

/-- The node handed to `build_datatype_py`, carrying exactly the
attributes the function reads.  `child_datatypes` are the non-literal
(datatype) children and `child_literals` the literal children, both in
tree insertion order; `constructor_params_docstring` stands for the
string returned by `node.get_constructor_params_docstring(indent=8)`. -/
structure PlotlyNode where
  name_property : String
  name_undercase : String
  name_datatype_class : String
  name_base_datatype : String
  parent_dotpath_str : String
  parent_path_str : String
  description : String
  is_compound : Bool
  child_datatypes : List ChildNode
  child_literals : List ChildNode
  constructor_params_docstring : String

/-- Modelled from the spec: `node.child_compound_datatypes` is computed
by codegen/utils.py, which is outside this extract; per section 4.5 of
the design the nested-object import is needed exactly when some child
is itself a compound datatype. -/
def PlotlyNode.child_compound_datatypes (node : PlotlyNode) : List ChildNode :=
  node.child_datatypes.filter (fun c => c.is_compound)

/-- Wrapped property description, lines 116-121 of build_datatype_py. -/
def wrapped_property_description (c : ChildNode) : String :=
  pyJoin "\n" (textwrap_wrap c.description 8 (79 - 8))

/-- Combination of the wrapped property description with the reindented
validator description, lines 123-137 of build_datatype_py.  The Python
code branches on the validator instance being present and on
`property_description.strip()` being non-empty. -/
def property_docstring (c : ChildNode) : String :=
  match c.validator with
  | some vdesc =>
    if pyStrip (wrapped_property_description c) ≠ "" then
      wrapped_property_description c ++ "\n    \n        "
        ++ reindent_validator_description vdesc 4
    else
      "        " ++ reindent_validator_description vdesc 4
  | none => wrapped_property_description c

/-- Header of the getter def statement for a child property. -/
def getter_marker (c : ChildNode) : String := "def " ++ c.name_property ++ "(self) -> "

/-- Header of the setter def statement for a child property. -/
def setter_marker (c : ChildNode) : String := "def " ++ c.name_property ++ "(self, val):"

/-- Comment banner and decorator preceding the getter def statement. -/
def getter_head (c : ChildNode) : String :=
  "\n    # " ++ c.name_property ++ "\n    # " ++ dashes c.name_property
    ++ "\n    @property\n    "

/-- Docstring and body following the getter type expression. -/
def getter_tail (c : ChildNode) : String :=
  ":\n        \"\"\"\n" ++ property_docstring c
    ++ "\n        \"\"\"\n        return self[\x27" ++ c.name_property ++ "\x27]"

/-- Text of one property getter, lines 140-149 of build_datatype_py. -/
def getter_text (c : ChildNode) (prop_type : String) : String :=
  getter_head c ++ (getter_marker c ++ (prop_type ++ getter_tail c))

/-- Decorator line preceding the setter def statement. -/
def setter_head (c : ChildNode) : String :=
  "\n\n    @" ++ c.name_property ++ ".setter\n    "

/-- Body of the setter. -/
def setter_tail (c : ChildNode) : String :=
  "\n        self[\x27" ++ c.name_property ++ "\x27] = val\n"

/-- Text of one property setter, lines 152-156 of build_datatype_py. -/
def setter_text (c : ChildNode) : String :=
  setter_head c ++ (setter_marker c ++ setter_tail c)

/-- Accessor and mutator pair emitted for one non-literal child. -/
def property_block (c : ChildNode) (prop_type : String) : String :=
  getter_text c prop_type ++ setter_text c

/-- Resolution of the type expression of one child property, lines
107-113 of build_datatype_py: array elements and compound children get
structural references, all other children go through get_typing_type
with array_ok left at its default of false. -/
def subtype_prop_type (undercase : String) (c : ChildNode) : Except EmitError String :=
  if c.is_array_element then
    .ok ("Tuple[d_" ++ undercase ++ "." ++ c.name_datatype_class ++ "]")
  else if c.is_compound then
    .ok ("d_" ++ undercase ++ "." ++ c.name_datatype_class)
  else
    get_typing_type c.datatype false

/-- The datatype-children loop of build_datatype_py (lines 106-156):
emits the accessor and mutator pair of every non-literal child in
insertion order and tracks the value the Python local variable
prop_type holds after the loop (`none` when the loop body never ran). -/
def subtype_section (undercase : String) (last_prop_type : Option String) :
    List ChildNode → Except EmitError (String × Option String)
  | [] => .ok ("", last_prop_type)
  | c :: cs =>
    match subtype_prop_type undercase c with
    | .error e => .error e
    | .ok pt =>
      match subtype_section undercase (some pt) cs with
      | .error e => .error e
      | .ok (rest, lpt) => .ok (property_block c pt ++ rest, lpt)

/-- Header of the literal accessor def statement. -/
def literal_marker (l : ChildNode) : String := "def " ++ l.name_property ++ "(self) -> "

/-- Comment banner and decorator preceding the literal accessor. -/
def literal_head (l : ChildNode) : String :=
  "\n    # " ++ l.name_property ++ "\n    # " ++ dashes l.name_property
    ++ "\n    @property\n    "

/-- Body of the literal accessor: it reads the pre-populated private slot. -/
def literal_tail (l : ChildNode) : String :=
  ":\n        return self._props[\x27" ++ l.name_property ++ "\x27]\n"

/-- Text of one read-only literal accessor (lines 159-166); `prop_type`
is whatever value the variable prop_type held after the
datatype-children loop, a leftover of the preceding loop. -/
def literal_block (prop_type : String) (l : ChildNode) : String :=
  literal_head l ++ (literal_marker l ++ (prop_type ++ literal_tail l))

/-- The literal-accessor loop of build_datatype_py: reading prop_type
raises NameError when the datatype-children loop never assigned it. -/
def literal_section (prop_type : Option String) : List ChildNode → Except EmitError String
  | [] => .ok ""
  | l :: ls =>
    match prop_type with
    | none => .error .unboundPropType
    | some pt =>
      match literal_section prop_type ls with
      | .error e => .error e
      | .ok rest => .ok (literal_block pt l ++ rest)

/-- One constructor parameter with its unset default. -/
def param_entry (c : ChildNode) : String := c.name_property ++ "=None"

/-- The parameter loop body of add_constructor_params (lines 273-275). -/
def params_text : List ChildNode → String
  | [] => ""
  | c :: cs => ",\n            " ++ param_entry c ++ params_text cs

/-- Python `add_constructor_params(buffer, subtype_nodes)` as the string
it writes (lines 259-280): one optional keyword parameter per node in
order, then the variadic catch-all, then the closing of the def. -/
def add_constructor_params (subtype_nodes : List ChildNode) : String :=
  params_text subtype_nodes ++ (",\n            **kwargs" ++ "\n        ):")

/-- Python `add_docstring(buffer, node, header)` as the string it writes
(lines 283-337).  The function asserts node.is_compound, which its only
caller build_datatype_py has already established at that point. -/
def add_docstring (node : PlotlyNode) (header : String) : String :=
  let node_description :=
    if node.description ≠ "" then
      pyJoin "\n" (textwrap_wrap node.description 8 (79 - 8)) ++ "\n\n"
    else node.description
  "\n        \"\"\"\n        " ++ header ++ "\n        \n"
    ++ node_description ++ "        Parameters\n        ----------"
    ++ node.constructor_params_docstring
    ++ ("\n\n        Returns\n        -------\n        "
        ++ node.name_datatype_class ++ "\n        \"\"\"")

/-- Import block of the generated module, lines 78-94 of
build_datatype_py: the nested-object package is imported only when the
node has compound children. -/
def imports_text (node : PlotlyNode) : String :=
  "from typing import *\n" ++ "from numbers import Number\n"
    ++ ("from plotly.basedatatypes import " ++ node.name_base_datatype ++ "\n")
    ++ ("from plotly.validators" ++ node.parent_dotpath_str ++ " import "
        ++ node.name_undercase ++ " as v_" ++ node.name_undercase ++ "\n")
    ++ (match node.child_compound_datatypes with
        | [] => ""
        | _ :: _ =>
          "from plotly.graph_objs" ++ node.parent_dotpath_str ++ " import "
            ++ node.name_undercase ++ " as d_" ++ node.name_undercase ++ "\n")

/-- Class statement of the generated module, lines 98-100. -/
def class_header (node : PlotlyNode) : String :=
  "\n\nclass " ++ node.name_datatype_class ++ "(" ++ node.name_base_datatype ++ "):\n"

/-- Private metadata accessors, lines 169-186 of build_datatype_py. -/
def private_section (node : PlotlyNode) : String :=
  "\n\n    # property parent name\n    # --------------------\n    @property\n    def _parent_path_str(self) -> str:\n        return \x27"
    ++ node.parent_path_str
    ++ "\x27\n\n    # Self properties description\n    # ---------------------------\n    @property\n    def _prop_descriptions(self) -> str:\n        return \"\"\"\\"
    ++ node.constructor_params_docstring
    ++ "\n        \"\"\""

/-- Validator registration lines of the constructor body, lines 201-205. -/
def validator_lines (undercase : String) : List ChildNode → String
  | [] => ""
  | c :: cs =>
    "\n        self._validators[\x27" ++ c.name_property ++ "\x27] = v_" ++ undercase
      ++ "." ++ c.name_validator_class ++ "()" ++ validator_lines undercase cs

/-- Property population lines of the constructor body, lines 211-213. -/
def populate_lines : List ChildNode → String
  | [] => ""
  | c :: cs =>
    "\n        self." ++ c.name_property ++ " = " ++ c.name_property ++ populate_lines cs

/-- One literal seeding statement of the constructor body, lines 226-227. -/
def seed_entry (l : ChildNode) : String :=
  "\n        self._props[\x27" ++ l.name_property ++ "\x27] = \x27" ++ l.node_data ++ "\x27"

/-- All literal seeding statements, lines 223-227. -/
def seed_lines : List ChildNode → String
  | [] => ""
  | l :: ls => seed_entry l ++ seed_lines ls

/-- Literal part of the constructor body, lines 215-227: the banner and
the seeding statements are written only when the recomputed literal
list is non-empty. -/
def seed_section : List ChildNode → String
  | [] => ""
  | l :: ls =>
    "\n\n        # Read-only literals\n        # ------------------"
      ++ seed_lines (l :: ls)

/-- Constructor body of the generated class, lines 196-227 of
build_datatype_py: super call, validator registration, property
population and literal seeding. -/
def ctor_body (node : PlotlyNode) : String :=
  "\n        super().__init__(\x27" ++ node.name_property
    ++ "\x27, **kwargs)\n\n        # Initialize validators\n        # ---------------------"
    ++ validator_lines node.name_undercase node.child_datatypes
    ++ "\n\n        # Populate data dict with properties\n        # ----------------------------------"
    ++ populate_lines node.child_datatypes
    ++ seed_section (node.child_literals.filter (fun l => l.plotly_name == "type"))

/-- Python `build_datatype_py(node)` (lines 45-231): the full class
source text, or the exception the Python function raises. -/
def build_datatype_py (node : PlotlyNode) : Except EmitError String :=
  if node.is_compound = false then .error .notCompound
  else
    match subtype_section node.name_undercase none node.child_datatypes with
    | .error e => .error e
    | .ok (props_text, last_prop_type) =>
      match literal_section last_prop_type
          (node.child_literals.filter (fun l => l.plotly_name == "type")) with
      | .error e => .error e
      | .ok lit_text =>
        .ok (imports_text node ++ (class_header node ++ (props_text ++ (lit_text
          ++ (private_section node ++ ("\n    def __init__(self"
          ++ (add_constructor_params node.child_datatypes
          ++ (add_docstring node ("Construct a new " ++ node.name_datatype_class ++ " object")
          ++ ctor_body node))))))))

/-- The marker lists ms occur as pairwise disjoint contiguous segments
of s, in the given order. -/
def containsInOrder {α : Type} : List α → List (List α) → Prop
  | _, [] => True
  | s, m :: ms => ∃ a b, s = a ++ (m ++ b) ∧ containsInOrder b ms

theorem containsInOrder_nil {α : Type} (s : List α) : containsInOrder s [] := trivial

theorem containsInOrder_prepend {α : Type} (a : List α) {s : List α}
    {ms : List (List α)} (h : containsInOrder s ms) : containsInOrder (a ++ s) ms := by
  cases ms with
  | nil => trivial
  | cons m ms =>
    obtain ⟨x, b, rfl, hrest⟩ := h
    exact ⟨a ++ x, b, by rw [List.append_assoc], hrest⟩

theorem containsInOrder_extend {α : Type} (t : List α) {s : List α}
    {ms : List (List α)} (h : containsInOrder s ms) : containsInOrder (s ++ t) ms := by
  induction ms generalizing s with
  | nil => trivial
  | cons m ms ih =>
    obtain ⟨a, b, rfl, hrest⟩ := h
    exact ⟨a, b ++ t, by simp [List.append_assoc], ih hrest⟩

theorem containsInOrder_concat {α : Type} {s t : List α}
    {ms ns : List (List α)} (hs : containsInOrder s ms) (ht : containsInOrder t ns) :
    containsInOrder (s ++ t) (ms ++ ns) := by
  induction ms generalizing s with
  | nil => exact containsInOrder_prepend s ht
  | cons m ms ih =>
    obtain ⟨a, b, rfl, hrest⟩ := hs
    exact ⟨a, b ++ t, by simp [List.append_assoc], ih hrest⟩

theorem containsInOrder_here {α : Type} (m : List α) {b : List α}
    {ms : List (List α)} (h : containsInOrder b ms) : containsInOrder (m ++ b) (m :: ms) :=
  ⟨[], b, by simp, h⟩

/-- The closed set of valType tags accepted by get_typing_type. -/
def knownTags : List String :=
  ["data_array", "info_array", "colorlist", "string", "color", "colorscale",
   "subplotid", "enumerated", "flaglist", "any", "number", "angle", "integer", "boolean"]

theorem base_pytype_ok_mem {t s : String} (h : base_pytype t = .ok s) :
    s ∈ (["List", "str", "Any", "Number", "int", "bool"] : List String) := by
  unfold base_pytype at h
  repeat' split at h
  all_goals simp_all

theorem base_pytype_ok_known {t s : String} (h : base_pytype t = .ok s) :
    t ∈ knownTags := by
  unfold base_pytype at h
  repeat' split at h
  all_goals simp_all [knownTags]
  all_goals tauto

theorem base_pytype_not_known {t : String} (h : t ∉ knownTags) :
    base_pytype t = .error (.unknownType t) := by
  simp only [knownTags, List.mem_cons, List.not_mem_nil, or_false, not_or] at h
  obtain ⟨h1, h2, h3, h4, h5, h6, h7, h8, h9, h10, h11, h12, h13, h14⟩ := h
  simp [base_pytype, h1, h2, h3, h4, h5, h6, h7, h8, h9, h10, h11, h12, h13, h14]

theorem base_pytype_error {t : String} {e : EmitError} (h : base_pytype t = .error e) :
    e = .unknownType t := by
  unfold base_pytype at h
  repeat' split at h
  all_goals simp_all

theorem get_typing_type_error {t : String} {ao : Bool} {e : EmitError}
    (h : get_typing_type t ao = .error e) : e = .unknownType t := by
  unfold get_typing_type at h
  split at h
  · exact base_pytype_error (by simp_all)
  · split at h <;> simp_all

/-- C1: for every declared-type tag in the closed set, get_typing_type
with array_ok false returns a non-empty type expression, and for every
tag outside the closed set it fails with the unknown-type error instead
of returning a value. -/
theorem C1_type_mapping_totality (t : String) :
    (t ∈ knownTags → ∃ s, get_typing_type t false = .ok s ∧ s ≠ "")
    ∧ (t ∉ knownTags → get_typing_type t false = .error (.unknownType t)) := by
  constructor
  · intro ht
    fin_cases ht <;> exact ⟨_, rfl, by decide⟩
  · intro ht
    simp [get_typing_type, base_pytype_not_known ht]

/-- Witness for C1 at a tag inside the closed set and one outside it. -/
theorem C1_witness :
    (∃ s, get_typing_type "integer" false = .ok s ∧ s ≠ "")
    ∧ get_typing_type "winteger" false = .error (.unknownType "winteger") :=
  ⟨(C1_type_mapping_totality "integer").1 (by decide),
   (C1_type_mapping_totality "winteger").2 (by decide)⟩

theorem subtype_prop_type_error {u : String} {c : ChildNode} {e : EmitError}
    (h : subtype_prop_type u c = .error e) : ∃ t, e = .unknownType t := by
  unfold subtype_prop_type at h
  split at h
  · exact Except.noConfusion h
  · split at h
    · exact Except.noConfusion h
    · exact ⟨_, get_typing_type_error h⟩

theorem subtype_section_error {u : String} {e : EmitError} :
    ∀ (cs : List ChildNode) (lpt : Option String),
      subtype_section u lpt cs = .error e → ∃ t, e = .unknownType t := by
  intro cs
  induction cs with
  | nil => intro lpt h; exact Except.noConfusion h
  | cons c cs ih =>
    intro lpt h
    cases hpt : subtype_prop_type u c with
    | error e2 =>
      simp [subtype_section, hpt] at h
      subst h
      exact subtype_prop_type_error hpt
    | ok pt =>
      cases hrec : subtype_section u (some pt) cs with
      | error e2 =>
        simp [subtype_section, hpt, hrec] at h
        subst h
        exact ih (some pt) hrec
      | ok pr => simp [subtype_section, hpt, hrec] at h

theorem literal_section_error {pt : Option String} {e : EmitError} :
    ∀ ls, literal_section pt ls = .error e → e = .unboundPropType := by
  intro ls
  induction ls with
  | nil => intro h; exact Except.noConfusion h
  | cons l ls ih =>
    intro h
    cases pt with
    | none => simp [literal_section] at h; exact h.symm
    | some p =>
      cases hrec : literal_section (some p) ls with
      | error e2 =>
        simp [literal_section, hrec] at h
        subst h
        exact ih hrec
      | ok rest => simp [literal_section, hrec] at h

/-- C4: emit on a non-compound node fails with the not-compound error
(the assert at line 63) and produces no source text; on a compound node
the precondition check passes, in that the result is never the
not-compound error. -/
theorem C4_not_compound_guard (node : PlotlyNode) :
    (node.is_compound = false → build_datatype_py node = .error .notCompound)
    ∧ (node.is_compound = true →
        ∀ e, build_datatype_py node = .error e → e ≠ .notCompound) := by
  constructor
  · intro h; simp [build_datatype_py, h]
  · intro h e he
    unfold build_datatype_py at he
    rw [h] at he
    rw [if_neg (by decide)] at he
    split at he
    · rename_i e2 heq
      injection he with he2
      subst he2
      obtain ⟨t, ht⟩ := subtype_section_error node.child_datatypes none heq
      subst ht
      simp
    · rename_i props lpt heq
      split at he
      · rename_i e2 heq2
        injection he with he2
        subst he2
        have h3 := literal_section_error _ heq2
        subst h3
        simp
      · exact Except.noConfusion he

/-- A node that is not compound, used to exercise the precondition check. -/
def nonCompoundSample : PlotlyNode :=
  { name_property := "x", name_undercase := "x", name_datatype_class := "X",
    name_base_datatype := "BaseTraceHierarchyType", parent_dotpath_str := "",
    parent_path_str := "", description := "", is_compound := false,
    child_datatypes := [], child_literals := [], constructor_params_docstring := "" }

/-- A literal type child fixed to the value scatter. -/
def typeLiteralChild : ChildNode :=
  { plotly_name := "type", name_property := "type", name_datatype_class := "Type",
    name_validator_class := "TypeValidator", is_compound := false,
    is_array_element := false, datatype := "string", description := "",
    node_data := "scatter", validator := none }

/-- A compound node with no non-literal children and a literal type child. -/
def zeroPropNode : PlotlyNode :=
  { name_property := "frames", name_undercase := "frames",
    name_datatype_class := "Frames", name_base_datatype := "BaseFrameHierarchyType",
    parent_dotpath_str := "", parent_path_str := "", description := "",
    is_compound := true, child_datatypes := [],
    child_literals := [typeLiteralChild], constructor_params_docstring := "" }

/-- Witness for C4: the guard fires on a concrete non-compound node,
and on a concrete compound node that fails for another reason the
error is not the not-compound one. -/
theorem C4_witness :
    build_datatype_py nonCompoundSample = .error .notCompound
    ∧ EmitError.unboundPropType ≠ EmitError.notCompound :=
  ⟨(C4_not_compound_guard nonCompoundSample).1 rfl,
   (C4_not_compound_guard zeroPropNode).2 rfl .unboundPropType rfl⟩

/-- C5: emission is a pure function of the node; two calls on equal
nodes give byte-identical text.  In this embedding build_datatype_py is
a function with no state, so determinism is congruence. -/
theorem C5_deterministic_emit (n₁ n₂ : PlotlyNode) (h : n₁ = n₂) :
    build_datatype_py n₁ = build_datatype_py n₂ := by rw [h]

/-- Witness for C5 at a concrete node. -/
theorem C5_witness :
    build_datatype_py nonCompoundSample = build_datatype_py nonCompoundSample :=
  C5_deterministic_emit nonCompoundSample nonCompoundSample rfl

theorem get_typing_type_scalar {t s : String} (h : get_typing_type t false = .ok s) :
    s ∈ (["List", "str", "Any", "Number", "int", "bool"] : List String)
    ∧ get_typing_type t true = .ok ("Union[" ++ s ++ ", List[" ++ s ++ "]]") := by
  unfold get_typing_type at *
  cases hb : base_pytype t with
  | error e => rw [hb] at h; exact Except.noConfusion h
  | ok p =>
    rw [hb] at h
    simp at h
    subst h
    exact ⟨base_pytype_ok_mem hb, by simp⟩

/-- C10: for a non-compound, non-array-element child the emitter calls
get_typing_type with array_ok left at false, so the accessor type
expression is always the scalar base type, never the scalar-or-sequence
Union expression, whatever the schema says about arrays being allowed. -/
theorem C10_scalar_base_type (u : String) (c : ChildNode)
    (ha : c.is_array_element = false) (hc : c.is_compound = false) :
    subtype_prop_type u c = get_typing_type c.datatype false
    ∧ ∀ s, get_typing_type c.datatype false = .ok s →
        s ∈ (["List", "str", "Any", "Number", "int", "bool"] : List String)
        ∧ get_typing_type c.datatype true = .ok ("Union[" ++ s ++ ", List[" ++ s ++ "]]")
        ∧ ("Union[" ++ s ++ ", List[" ++ s ++ "]]") ≠ s := by
  refine ⟨by simp [subtype_prop_type, ha, hc], ?_⟩
  intro s hs
  obtain ⟨hmem, huni⟩ := get_typing_type_scalar hs
  refine ⟨hmem, huni, ?_⟩
  fin_cases hmem <;> decide

/-- A plain numeric child property used as concrete input. -/
def numberChild : ChildNode :=
  { plotly_name := "size", name_property := "size", name_datatype_class := "Size",
    name_validator_class := "SizeValidator", is_compound := false,
    is_array_element := false, datatype := "number", description := "",
    node_data := "", validator := none }

/-- Witness for C10 at a concrete numeric child. -/
theorem C10_witness :
    subtype_prop_type "marker" numberChild = get_typing_type "number" false
    ∧ get_typing_type "number" true = .ok ("Union[" ++ "Number" ++ ", List[" ++ "Number" ++ "]]")
    ∧ ("Union[" ++ "Number" ++ ", List[" ++ "Number" ++ "]]") ≠ "Number" := by
  have h := C10_scalar_base_type "marker" numberChild rfl rfl
  exact ⟨h.1, (h.2 "Number" rfl).2.1, (h.2 "Number" rfl).2.2⟩

theorem str_assoc (a b c : String) : a ++ b ++ c = a ++ (b ++ c) := by
  apply String.ext
  simp [String.data_append, List.append_assoc]

theorem splitBy_ne_nil (p : Char → Bool) (l : List Char) : splitBy p l ≠ [] := by
  cases l with
  | nil => simp [splitBy]
  | cons c rest =>
    unfold splitBy
    split
    · simp
    · split <;> simp

theorem pyJoin_indent_aux (ind : String) :
    ∀ (ys : List String) (y : String),
      ind ++ pyJoin ("\n" ++ ind) (y :: ys)
        = pyJoin "\n" ((ind ++ y) :: ys.map (fun l => ind ++ l)) := by
  intro ys
  induction ys with
  | nil => intro y; rfl
  | cons z zs ih =>
    intro y
    rw [show pyJoin ("\n" ++ ind) (y :: z :: zs)
          = y ++ ("\n" ++ ind) ++ pyJoin ("\n" ++ ind) (z :: zs) from rfl]
    rw [show pyJoin "\n" ((ind ++ y) :: (z :: zs).map (fun l => ind ++ l))
          = (ind ++ y) ++ "\n" ++ pyJoin "\n" ((ind ++ z) :: zs.map (fun l => ind ++ l)) from rfl]
    rw [← ih z]
    simp [str_assoc]

theorem pyJoin_indent (ind x : String) (xs : List String) :
    pyJoin ("\n" ++ ind) (x :: xs) = pyJoin "\n" (x :: xs.map (fun l => ind ++ l)) := by
  cases xs with
  | nil => rfl
  | cons y ys =>
    rw [show pyJoin ("\n" ++ ind) (x :: y :: ys)
          = x ++ ("\n" ++ ind) ++ pyJoin ("\n" ++ ind) (y :: ys) from rfl]
    rw [show pyJoin "\n" (x :: (y :: ys).map (fun l => ind ++ l))
          = x ++ "\n" ++ pyJoin "\n" ((ind ++ y) :: ys.map (fun l => ind ++ l)) from rfl]
    rw [← pyJoin_indent_aux ind ys y]
    simp [str_assoc]

theorem dropWhile_head_false (p : Char → Bool) :
    ∀ (l : List Char) (c : Char) (t : List Char), l.dropWhile p = c :: t → p c = false := by
  intro l
  induction l with
  | nil => intro c t h; simp [List.dropWhile] at h
  | cons a l ih =>
    intro c t h
    by_cases hp : p a
    · simp only [List.dropWhile_cons, hp, if_true] at h
      exact ih c t h
    · simp only [List.dropWhile_cons, hp, if_false] at h
      injection h with h1 h2
      subst h1
      simpa using hp

theorem dropWhile_suffix (p : Char → Bool) :
    ∀ (l : List Char), ∃ u, u ++ l.dropWhile p = l := by
  intro l
  induction l with
  | nil => exact ⟨[], rfl⟩
  | cons a l ih =>
    by_cases hp : p a
    · obtain ⟨u, hu⟩ := ih
      exact ⟨a :: u, by simp [List.dropWhile_cons, hp, hu]⟩
    · exact ⟨[], by simp [List.dropWhile_cons, hp]⟩

theorem dropTrailing_isPrefix (p : Char → Bool) (l : List Char) :
    ∃ t, dropTrailing p l ++ t = l := by
  obtain ⟨u, hu⟩ := dropWhile_suffix p l.reverse
  refine ⟨u.reverse, ?_⟩
  have h2 := congrArg List.reverse hu
  simpa [List.reverse_append, dropTrailing] using h2

theorem pyStripList_head {l : List Char} {c : Char} {t : List Char}
    (h : pyStripList l = c :: t) : pyIsSpace c = false := by
  unfold pyStripList at h
  obtain ⟨u, hu⟩ := dropTrailing_isPrefix pyIsSpace (l.dropWhile pyIsSpace)
  rw [h] at hu
  exact dropWhile_head_false pyIsSpace l c (t ++ u) (by rw [← hu]; simp)

/-- C6 counterexample: on a two-line validator description whose second
line carries the 4-space baseline indent, reindenting with a new indent
of 4 gives the second line 8 leading spaces (the baseline plus 4), not
the 4 spaces the claim asks for. -/
theorem C6_counterexample :
    reindent_validator_description "a\n    b" 4 = "a\n        b"
    ∧ reindent_validator_description "a\n    b" 4 ≠ "a\n    b" := by
  constructor <;> decide

/-- C6 amended: reindent strips leading and trailing whitespace of the
whole description, so the first line carries no leading indent, and
every line after the first keeps its own indent with exactly
extra_indent further spaces prepended; the fixed 4-space baseline is
not removed. -/
theorem C6_reindent_amended (validator : String) (extra_indent : Nat) :
    (∃ first rest, pySplitNL (pyStrip validator) = first :: rest
      ∧ reindent_validator_description validator extra_indent
          = pyJoin "\n" (first :: rest.map (fun l => sp extra_indent ++ l)))
    ∧ (∀ c t, (pyStrip validator).data = c :: t → pyIsSpace c = false) := by
  constructor
  · cases hsplit : pySplitNL (pyStrip validator) with
    | nil =>
      exfalso
      have hne := splitBy_ne_nil (fun c => c == '\n') (pyStrip validator).data
      rw [pySplitNL] at hsplit
      rw [List.map_eq_nil_iff] at hsplit
      exact hne hsplit
    | cons first rest =>
      exact ⟨first, rest, rfl,
        by rw [reindent_validator_description, hsplit, pyJoin_indent]⟩
  · intro c t h
    exact pyStripList_head h

/-- Witness for the amended C6 on a concrete description. -/
theorem C6_witness :
    reindent_validator_description "a\n    b" 2
      = pyJoin "\n" ("a" :: (["    b"].map (fun l => sp 2 ++ l)))
    ∧ pyIsSpace 'a' = false := by
  obtain ⟨⟨first, rest, h1, h2⟩, h3⟩ := C6_reindent_amended "a\n    b" 2
  have heq : ("a" :: ["    b"] : List String) = first :: rest :=
    (by decide : pySplitNL (pyStrip "a\n    b") = ["a", "    b"]).symm.trans h1
  injection heq with hf hr
  subst hf
  subst hr
  exact ⟨h2, h3 'a' ("\n    b").data (by decide)⟩

/-- Concatenation of a list of strings. -/
def concatList : List String → String
  | [] => ""
  | s :: ss => s ++ concatList ss

theorem params_text_eq (cs : List ChildNode) :
    params_text cs
      = concatList (cs.map (fun c => ",\n            " ++ param_entry c)) := by
  induction cs with
  | nil => rfl
  | cons c cs ih => simp [params_text, concatList, ih, str_assoc]

/-- C2: the constructor parameter list has exactly one optional keyword
parameter per non-literal child, each defaulting to None, in tree
insertion order, followed by the variadic catch-all last; under the
unique-child-name tree invariant no literal child's property name
appears among the parameters, and no parameter is required. -/
theorem C2_constructor_params (node : PlotlyNode)
    (hnames : ∀ l ∈ node.child_literals, ∀ c ∈ node.child_datatypes,
        l.name_property ≠ c.name_property) :
    add_constructor_params node.child_datatypes
      = concatList (node.child_datatypes.map
          (fun c => ",\n            " ++ (c.name_property ++ "=None")))
        ++ (",\n            **kwargs" ++ "\n        ):")
    ∧ ∀ l ∈ node.child_literals,
        (l.name_property ++ "=None")
          ∉ node.child_datatypes.map (fun c => c.name_property ++ "=None") := by
  constructor
  · rw [add_constructor_params, params_text_eq]; rfl
  · intro l hl hmem
    simp only [List.mem_map] at hmem
    obtain ⟨c, hc, hequal⟩ := hmem
    have hdata := congrArg String.data hequal
    simp only [String.data_append] at hdata
    have hname : c.name_property = l.name_property :=
      String.ext (List.append_cancel_right hdata)
    exact hnames l hl c hc hname.symm

/-- A plain color child property. -/
def colorChild : ChildNode :=
  { plotly_name := "color", name_property := "color", name_datatype_class := "Color",
    name_validator_class := "ColorValidator", is_compound := false,
    is_array_element := false, datatype := "color", description := "",
    node_data := "", validator := none }

/-- A compound node with two non-literal children and a literal type child. -/
def scatterNode : PlotlyNode :=
  { name_property := "scatter", name_undercase := "scatter",
    name_datatype_class := "Scatter", name_base_datatype := "BaseTraceType",
    parent_dotpath_str := "", parent_path_str := "", description := "",
    is_compound := true, child_datatypes := [colorChild, numberChild],
    child_literals := [typeLiteralChild], constructor_params_docstring := "" }

/-- C8: evaluating the embedded code at the failing input.  A compound
node with zero non-literal children and a literal type child makes
build_datatype_py abort with the unbound prop_type NameError (line 165
reads the loop variable prop_type, which the datatype-children loop
never assigned) instead of emitting a zero-property class. -/
theorem C8_zero_property_failing :
    build_datatype_py zeroPropNode = .error .unboundPropType := rfl

theorem str_data_nil : ("" : String).data = [] := rfl

theorem containsInOrder_self {α : Type} (m : List α) : containsInOrder m [m] :=
  ⟨[], [], by simp, trivial⟩

/-- C9 counterexample: the claim fails as stated, because on a compound
node whose only child is the literal type child fixed to scatter the
code aborts with the unbound prop_type NameError before emitting
anything, so no read-only accessor is produced at all. -/
theorem C9_counterexample :
    zeroPropNode.is_compound = true
    ∧ zeroPropNode.child_literals = [typeLiteralChild]
    ∧ typeLiteralChild.plotly_name = "type"
    ∧ typeLiteralChild.node_data = "scatter"
    ∧ ∀ out : String, build_datatype_py zeroPropNode ≠ .ok out := by
  refine ⟨rfl, rfl, rfl, rfl, ?_⟩
  intro out h
  rw [show build_datatype_py zeroPropNode = .error .unboundPropType from rfl] at h
  exact Except.noConfusion h

/-- C9 amended: whenever emission succeeds (which requires at least one
non-literal child, see the counterexample), a compound node with one
literal child named type fixed to scatter gets, in this order, a
read-only accessor whose body returns the private slot of type and a
constructor-body statement seeding that slot with scatter, while type
never appears among the constructor parameter names. -/
theorem C9_literal_accessor (node : PlotlyNode) (lit : ChildNode) (out : String)
    (hlits : node.child_literals = [lit])
    (hname : lit.plotly_name = "type")
    (hprop : lit.name_property = "type")
    (hval : lit.node_data = "scatter")
    (hdisj : ∀ c ∈ node.child_datatypes, c.name_property ≠ "type")
    (hok : build_datatype_py node = .ok out) :
    containsInOrder out.data
      [("def type(self) -> ").data,
       (":\n        return self._props[\x27type\x27]\n").data,
       ("self._props[\x27type\x27] = \x27scatter\x27").data]
    ∧ "type" ∉ node.child_datatypes.map (fun c => c.name_property) := by
  have hfilter : node.child_literals.filter (fun l => l.plotly_name == "type") = [lit] := by
    rw [hlits]; simp [List.filter_cons, hname]
  constructor
  case right =>
    intro hmem
    simp only [List.mem_map] at hmem
    obtain ⟨c, hc, hcn⟩ := hmem
    exact hdisj c hc hcn
  case left =>
    unfold build_datatype_py at hok
    cases hcomp : node.is_compound with
    | false => rw [hcomp] at hok; simp at hok
    | true =>
      rw [hcomp, if_neg (by decide)] at hok
      split at hok
      · exact Except.noConfusion hok
      · rename_i props lpt heq
        split at hok
        · exact Except.noConfusion hok
        · rename_i lit_text heq2
          rw [hfilter] at heq2
          cases lpt with
          | none => simp [literal_section] at heq2
          | some pt =>
            rw [show literal_section (some pt) [lit]
                  = .ok (literal_block pt lit ++ "") from rfl] at heq2
            injection heq2 with heq2
            injection hok with hok
            subst heq2
            subst hok
            have hm1 : literal_marker lit = "def type(self) -> " := by
              rw [literal_marker, hprop]; decide
            have hm2 : literal_tail lit = ":\n        return self._props[\x27type\x27]\n" := by
              rw [literal_tail, hprop]; decide
            have h12 : containsInOrder (literal_block pt lit).data
                [("def type(self) -> ").data,
                 (":\n        return self._props[\x27type\x27]\n").data] := by
              refine ⟨(literal_head lit).data, (pt ++ literal_tail lit).data, ?_, ?_⟩
              · rw [literal_block, hm1]
                simp [String.data_append]
              · refine ⟨pt.data, [], ?_, trivial⟩
                rw [hm2]
                simp [String.data_append]
            have hentry : seed_entry lit
                = "\n        " ++ "self._props[\x27type\x27] = \x27scatter\x27" := by
              rw [seed_entry, hprop, hval]; decide
            have h3 : containsInOrder (ctor_body node).data
                [("self._props[\x27type\x27] = \x27scatter\x27").data] := by
              rw [ctor_body, hfilter]
              rw [show seed_section [lit]
                    = "\n\n        # Read-only literals\n        # ------------------"
                      ++ (seed_entry lit ++ "") from rfl]
              rw [hentry]
              simp only [String.data_append, str_data_nil, List.append_nil]
              apply containsInOrder_prepend
              apply containsInOrder_prepend
              apply containsInOrder_prepend
              exact containsInOrder_self _
            simp only [String.data_append, str_data_nil, List.append_nil]
            apply containsInOrder_prepend
            apply containsInOrder_prepend
            apply containsInOrder_prepend
            refine containsInOrder_concat h12 ?_
            apply containsInOrder_prepend
            apply containsInOrder_prepend
            apply containsInOrder_prepend
            apply containsInOrder_prepend
            exact h3

/-- The text emitted for scatterNode. -/
def scatterOut : String :=
  match build_datatype_py scatterNode with
  | .ok s => s
  | .error _ => ""

/-- Witness for the amended C9 on a concrete node with two datatype
children and the literal type child. -/
theorem C9_witness :
    build_datatype_py scatterNode = .ok scatterOut
    ∧ (containsInOrder scatterOut.data
        [("def type(self) -> ").data,
         (":\n        return self._props[\x27type\x27]\n").data,
         ("self._props[\x27type\x27] = \x27scatter\x27").data]
      ∧ "type" ∉ scatterNode.child_datatypes.map (fun c => c.name_property)) :=
  ⟨rfl, C9_literal_accessor scatterNode typeLiteralChild scatterOut rfl rfl rfl rfl
    (by decide) rfl⟩

/-- Witness for C2 on a concrete node with two datatype children and a
literal type child. -/
theorem C2_witness :
    add_constructor_params scatterNode.child_datatypes
      = concatList (scatterNode.child_datatypes.map
          (fun c => ",\n            " ++ (c.name_property ++ "=None")))
        ++ (",\n            **kwargs" ++ "\n        ):")
    ∧ ("type" ++ "=None")
        ∉ scatterNode.child_datatypes.map (fun c => c.name_property ++ "=None") := by
  have h := C2_constructor_params scatterNode (by decide)
  exact ⟨h.1, h.2 typeLiteralChild (show typeLiteralChild ∈ [typeLiteralChild] from
    List.Mem.head _)⟩

/-- A leaf child with a non-empty description and a validator instance
whose description text is empty. -/
def emptyValidatorChild : ChildNode :=
  { plotly_name := "x", name_property := "x", name_datatype_class := "X",
    name_validator_class := "XValidator", is_compound := false,
    is_array_element := false, datatype := "number", description := "x",
    node_data := "", validator := some "" }

/-- C7 counterexample: when the property description is non-empty but
the validator description reindents to the empty string, only one of
the two pieces is present, yet the emitted docstring is not that piece
alone: the blank separator line and the 8-space indent are still
appended, because the code branches on the validator instance being
present rather than on its description being non-empty. -/
theorem C7_counterexample :
    emptyValidatorChild.validator = some ""
    ∧ reindent_validator_description "" 4 = ""
    ∧ pyStrip (wrapped_property_description emptyValidatorChild) ≠ ""
    ∧ property_docstring emptyValidatorChild
        = wrapped_property_description emptyValidatorChild ++ "\n    \n        "
    ∧ property_docstring emptyValidatorChild
        ≠ wrapped_property_description emptyValidatorChild := by
  refine ⟨rfl, by decide, by decide, by decide, by decide⟩

/-- C7 amended: the docstring builder for a leaf property appends the
reindented validator description whenever a validator instance is
present -- after the wrapped description and a whitespace-only
separator line when the wrapped description is non-blank, alone after
an 8-space indent otherwise, even if the validator description itself
is empty; with no validator instance the wrapped description stands
alone; and with an empty description and no validator the docstring
body is empty while the accessor still carries a well-formed empty
docstring block, without any failure. -/
theorem C7_docstring_cases (c : ChildNode) :
    (c.validator = none → property_docstring c = wrapped_property_description c)
    ∧ (∀ v, c.validator = some v → pyStrip (wrapped_property_description c) ≠ "" →
        property_docstring c
          = wrapped_property_description c ++ "\n    \n        "
            ++ reindent_validator_description v 4)
    ∧ (∀ v, c.validator = some v → pyStrip (wrapped_property_description c) = "" →
        property_docstring c = "        " ++ reindent_validator_description v 4)
    ∧ (c.description = "" → c.validator = none →
        property_docstring c = ""
        ∧ ∀ pt, ∃ a b, getter_text c pt = a ++ ("\"\"\"\n\n        \"\"\"" ++ b)) := by
  refine ⟨?_, ?_, ?_, ?_⟩
  · intro hv
    simp [property_docstring, hv]
  · intro v hv hne
    simp [property_docstring, hv, hne]
  · intro v hv hbl
    simp [property_docstring, hv, hbl]
  · intro hd hv
    have hpd : property_docstring c = "" := by
      simp [property_docstring, hv, wrapped_property_description, hd]
      decide
    refine ⟨hpd, fun pt => ?_⟩
    have e1 : (":\n        \"\"\"\n" : String) = ":\n        " ++ "\"\"\"\n" := by decide
    have e2 : ("\n        \"\"\"\n        return self[\x27" : String)
        = "\n        \"\"\"" ++ "\n        return self[\x27" := by decide
    have e3 : ("\"\"\"\n" : String) ++ "\n        \"\"\"" = "\"\"\"\n\n        \"\"\"" := by
      decide
    refine ⟨getter_head c ++ (getter_marker c ++ (pt ++ ":\n        ")),
      "\n        return self[\x27" ++ (c.name_property ++ "\x27]"), ?_⟩
    rw [getter_text, getter_tail, hpd, e1, e2, ← e3]
    apply String.ext
    simp [String.data_append, List.append_assoc, str_data_nil]

/-- A leaf child with a non-empty description and a two-line validator
description. -/
def widthChild : ChildNode :=
  { plotly_name := "width", name_property := "width", name_datatype_class := "Width",
    name_validator_class := "WidthValidator", is_compound := false,
    is_array_element := false, datatype := "number",
    description := "Sets the line width", node_data := "",
    validator := some "    The width property\n    must be a number" }

/-- Witness for the amended C7: the combined case on widthChild and the
all-empty case on colorChild. -/
theorem C7_witness :
    property_docstring widthChild
      = wrapped_property_description widthChild ++ "\n    \n        "
        ++ reindent_validator_description "    The width property\n    must be a number" 4
    ∧ property_docstring colorChild = "" :=
  ⟨(C7_docstring_cases widthChild).2.1 _ rfl (by decide),
   ((C7_docstring_cases colorChild).2.2.2 rfl rfl).1⟩

/-- Accessor-pair markers: for each child in order, the getter def
header then the setter def header. -/
def accessMarkers : List ChildNode → List (List Char)
  | [] => []
  | c :: cs => (getter_marker c).data :: (setter_marker c).data :: accessMarkers cs

/-- Parameter markers: each parameter entry in order, then the variadic
catch-all last. -/
def paramMarkers : List ChildNode -> List (List Char)
  | [] => [("**kwargs").data]
  | c :: cs => (param_entry c).data :: paramMarkers cs

theorem subtype_section_blocks {u : String} :
    ∀ (cs : List ChildNode) (lpt0 : Option String) (s : String) (lpt : Option String),
      subtype_section u lpt0 cs = .ok (s, lpt) →
      containsInOrder s.data (accessMarkers cs) := by
  intro cs
  induction cs with
  | nil => intro lpt0 s lpt h; exact trivial
  | cons c cs ih =>
    intro lpt0 s lpt h
    cases hpt : subtype_prop_type u c with
    | error e => simp [subtype_section, hpt] at h
    | ok pt =>
      cases hrec : subtype_section u (some pt) cs with
      | error e => simp [subtype_section, hpt, hrec] at h
      | ok pr =>
        obtain ⟨rest, lpt2⟩ := pr
        simp only [subtype_section, hpt, hrec, Except.ok.injEq, Prod.mk.injEq] at h
        obtain ⟨h1, h2⟩ := h
        subst h1
        simp only [property_block, getter_text, setter_text, String.data_append,
          List.append_assoc]
        refine ⟨_, _, rfl, ?_⟩
        apply containsInOrder_prepend
        apply containsInOrder_prepend
        apply containsInOrder_prepend
        refine containsInOrder_here _ ?_
        apply containsInOrder_prepend
        exact ih _ _ _ hrec

theorem add_constructor_params_markers (cs : List ChildNode) :
    containsInOrder (add_constructor_params cs).data (paramMarkers cs) := by
  induction cs with
  | nil =>
    have e : (",\n            **kwargs" : String) = ",\n            " ++ "**kwargs" := by
      decide
    simp only [add_constructor_params, params_text, paramMarkers, e,
      String.data_append, List.append_assoc, str_data_nil, List.nil_append]
    apply containsInOrder_prepend
    exact containsInOrder_here _ (containsInOrder_nil _)
  | cons c cs ih =>
    simp only [add_constructor_params, params_text, paramMarkers,
      String.data_append, List.append_assoc]
    apply containsInOrder_prepend
    refine containsInOrder_here _ ?_
    simp only [add_constructor_params, String.data_append, List.append_assoc] at ih
    exact ih

/-- C3: in the emitted text the property accessor and mutator pairs
appear exactly in the insertion order of the non-literal children, and
the constructor parameters follow in that same order, closed by the
variadic catch-all. -/
theorem C3_order_preservation (node : PlotlyNode) (out : String)
    (hcomp : node.is_compound = true)
    (hok : build_datatype_py node = .ok out) :
    containsInOrder out.data
      (accessMarkers node.child_datatypes ++ paramMarkers node.child_datatypes) := by
  unfold build_datatype_py at hok
  rw [hcomp, if_neg (by decide)] at hok
  split at hok
  · exact Except.noConfusion hok
  · rename_i props lpt heq
    split at hok
    · exact Except.noConfusion hok
    · rename_i lit_text heq2
      injection hok with hok
      subst hok
      have hprops := subtype_section_blocks node.child_datatypes none props lpt heq
      simp only [String.data_append]
      apply containsInOrder_prepend
      apply containsInOrder_prepend
      refine containsInOrder_concat hprops ?_
      apply containsInOrder_prepend
      apply containsInOrder_prepend
      apply containsInOrder_prepend
      exact containsInOrder_extend _ (add_constructor_params_markers node.child_datatypes)

/-- Witness for C3 on a concrete node with two datatype children. -/
theorem C3_witness :
    build_datatype_py scatterNode = .ok scatterOut
    ∧ containsInOrder scatterOut.data
        (accessMarkers scatterNode.child_datatypes
          ++ paramMarkers scatterNode.child_datatypes) :=
  ⟨rfl, C3_order_preservation scatterNode scatterOut rfl rfl⟩
